import Mathlib

/-!
Shallow embedding of `imdb_trakt_sync.py` (josh/imdb-trakt-sync) and proofs
about its reconciliation, pagination, pacing and mutation-application logic.

Modelling conventions, applied throughout:
* A Python `set[str]` value is modelled as a duplicate-free list
  (`List.dedup`) with the same membership; set difference is computed by
  membership.  Python's set iteration order is arbitrary and, per the design
  notes, must not be relied upon; the model's lists fix one enumeration of
  each set, so batch lists are meaningful up to membership and multiplicity.
* Python `dict` construction by repeated assignment is modelled as a left fold
  where a later binding overwrites an earlier one.
* `datetime` values are modelled as natural numbers counting seconds
  (day `d` at second-of-day `t` is `d * 86400 + t`); `date` values as natural
  numbers counting days.  Python's `datetime` comparison is isomorphic to this
  encoding at second precision.  The `isoformat` serialization applied just
  before a payload is sent is injective and is not modelled; timestamp fields
  of payload items keep the numeric value.
* JSON payload fields that are read by the code are modelled as structure
  fields; the `imdb` entry of an `ids` object is `Option String` because the
  source guards against a missing value (`_compact_set`, dict `.get`).
* The network is modelled by explicit inputs: snapshot lists for the remote
  reader endpoints, an `Option TraktWatchingItem` for `watching()`, and a
  boolean oracle for the `/search/imdb/<id>?type=` probe.  Outbound calls are
  reified as `TraktMutation` values instead of being performed.
* `requests.Response.raise_for_status` raises exactly for status codes in
  `[400, 600)`; this documented library behaviour is embedded in
  `raise_for_status`.
-/

/-- Media kind tag of a Trakt typed container
(`Literal["movie", "show", "season", "episode"]`). -/
inductive MediaKind where
  | movie
  | show
  | season
  | episode
deriving DecidableEq, Repr

/-- Kind tag restricted to `Literal["movie", "episode"]`, used by the
watching-status and history payloads. -/
inductive TraktWatchType where
  | movie
  | episode
deriving DecidableEq, Repr

/-- Kind tag of the IMDb-side dataclasses
(`Literal["movie", "show", "episode"]`). -/
inductive IMDBTraktType where
  | movie
  | show
  | episode
deriving DecidableEq, Repr

/-- `TraktIMDBIDs`: the `ids` object of a payload item.  The `imdb` entry is
optional because the source tolerates a missing value. -/
structure TraktIMDBIDs where
  imdb : Option String
deriving DecidableEq, Repr

/-- `TraktAnyItem`: an identifier-bearing payload item `{"ids": {"imdb": ...}}`. -/
structure TraktAnyItem where
  ids : TraktIMDBIDs
deriving DecidableEq, Repr

/-- `TraktTypedContainer`: a remote item whose active field depends on its
`type` tag. -/
structure TraktTypedContainer where
  type : MediaKind
  movie : TraktAnyItem
  «show» : TraktAnyItem
  season : TraktAnyItem
  episode : TraktAnyItem
deriving DecidableEq, Repr

/-- `TraktWatchlistItem`: one row of the remote watchlist snapshot. -/
structure TraktWatchlistItem extends TraktTypedContainer where
  rank : Int
  id : Int
deriving DecidableEq, Repr

/-- `TraktRatingItem`: one row of the remote ratings snapshot.  `rated_at` is
kept as the raw timestamp string; the core only logs it. -/
structure TraktRatingItem extends TraktTypedContainer where
  rated_at : String
  rating : Int
deriving DecidableEq, Repr

/-- `TraktRatedItem`: an outbound rated payload item.  `rated_at` is the
numeric datetime (see module conventions). -/
structure TraktRatedItem extends TraktAnyItem where
  rated_at : Nat
  rating : Int
deriving DecidableEq, Repr

/-- `TraktWatchingItem`: the "now playing" status record. -/
structure TraktWatchingItem where
  expires_at : String
  started_at : String
  action : String
  type : TraktWatchType
  movie : TraktAnyItem
  episode : TraktAnyItem
  «show» : TraktAnyItem
deriving DecidableEq, Repr

/-- `TraktHistoryItem`: one row of the remote history snapshot. -/
structure TraktHistoryItem where
  id : Int
  watched_at : String
  action : String
  type : TraktWatchType
  movie : TraktAnyItem
  episode : TraktAnyItem
deriving DecidableEq, Repr

/-- `TraktWatchedItem`: an outbound history payload item.  `watched_at` holds
the rated-on day looked up in the per-run dict (`None` only if the identifier
had no feed entry, which the source's construction rules out). -/
structure TraktWatchedItem extends TraktAnyItem where
  watched_at : Option Nat
deriving DecidableEq, Repr

/-- `IMDBWatchlistItem` dataclass produced by watchlist-feed ingestion. -/
structure IMDBWatchlistItem where
  imdb_id : String
  trakt_type : IMDBTraktType
deriving DecidableEq, Repr

/-- `IMDBRatingItem` dataclass produced by ratings-feed ingestion.
`rated_on` counts days. -/
structure IMDBRatingItem where
  imdb_id : String
  rating : Int
  rated_on : Nat
  trakt_type : IMDBTraktType
deriving DecidableEq, Repr

/-- One CSV row of the ratings feed, after the collaborator CSV decoder has
produced the typed column values (`Const`, `Your Rating`, `Date Rated`,
`Title Type`). -/
structure CSVRatingRow where
  const : String
  yourRating : Int
  dateRated : Nat
  titleType : String
deriving DecidableEq, Repr

/-- `_IMDB_MOVIE_TYPES`. -/
def _IMDB_MOVIE_TYPES : List String :=
  ["Movie", "Short", "TV Movie", "TV Special", "Video"]

/-- `_IMDB_SHOW_TYPES`. -/
def _IMDB_SHOW_TYPES : List String :=
  ["TV Series", "TV Mini Series"]

/-- `imdb_id.startswith("tt")`, computed on the character list so that it
evaluates by kernel reduction. -/
def _starts_with_tt (s : String) : Bool :=
  match s.data with
  | 't' :: 't' :: _ => true
  | _ => false

/-- The `Title Type` → kind mapping shared by both ingestion functions. -/
def _imdb_title_type (t : String) : Option IMDBTraktType :=
  if t ∈ _IMDB_MOVIE_TYPES then some .movie
  else if t ∈ _IMDB_SHOW_TYPES then some .show
  else none

/-- `fetch_imdb_ratings`: decode feed rows into `IMDBRatingItem`s; a
non-`tt` identifier or an unmapped title type is a hard input error
(the Python `assert`). -/
def fetch_imdb_ratings : List CSVRatingRow → Except String (List IMDBRatingItem)
  | [] => .ok []
  | row :: rest =>
    if ¬ _starts_with_tt row.const then
      .error ("Invalid IMDb ID: " ++ row.const)
    else
      match _imdb_title_type row.titleType with
      | none => .error ("Unknown IMDB Title Type: " ++ row.titleType)
      | some t =>
        (fetch_imdb_ratings rest).map
          (fun items =>
            { imdb_id := row.const, rating := row.yourRating,
              rated_on := row.dateRated, trakt_type := t } :: items)

/-- `_trakt_mediaitem_imdb_id`: extract the identifier of a typed container by
kind dispatch. -/
def _trakt_mediaitem_imdb_id (item : TraktTypedContainer) : Option String :=
  match item.type with
  | .movie => item.movie.ids.imdb
  | .show => item.«show».ids.imdb
  | .season => item.season.ids.imdb
  | .episode => item.episode.ids.imdb

/-- `_compact_set`: collect the present (non-`None`) identifiers into a set. -/
def _compact_set (s : List (Option String)) : List String :=
  (s.filterMap (fun x => x)).dedup

/-- Python set difference `a - b` on identifier sets. -/
def _set_diff (a b : List String) : List String :=
  a.filter (fun x => decide (x ∉ b))

/-- `trakt_watching_imdb_id`: identifier of the currently watched title.  In
the source this dispatch appears both in `trakt_watching_imdb_id` and inline
in `_block_watching_items`. -/
def trakt_watching_imdb_id (w : TraktWatchingItem) : Option String :=
  match w.type with
  | .movie => w.movie.ids.imdb
  | .episode => w.episode.ids.imdb

/-- `_block_watching_items`: drop every item whose `ids["imdb"]` equals the
watching identifier; with no watching status all items pass.  The accessor
`ids_of` stands for the duck-typed `item["ids"]` access (the source applies
the function to watchlist and history payload items alike).  The source's
defensive branch for a watching `type` outside movie and episode cannot fire:
the `type` tag has exactly those two values. -/
def _block_watching_items {α : Type} (ids_of : α → TraktIMDBIDs)
    (items : List α) (watching : Option TraktWatchingItem) : List α :=
  match watching with
  | none => items
  | some w =>
    items.filter (fun item => (ids_of item).imdb != trakt_watching_imdb_id w)

/-- `_filter_unknown_imdb_ids`: keep only items whose identifier the remote
search endpoint resolves for the given kind; `search_found` is the oracle for
"`GET /search/imdb/<id>?type=<kind>` returned a non-empty result list". -/
def _filter_unknown_imdb_ids {α : Type}
    (search_found : Option String → MediaKind → Bool)
    (ids_of : α → TraktIMDBIDs) (type : MediaKind) (items : List α) : List α :=
  items.filter (fun item => search_found (ids_of item).imdb type)

/-- A reified outbound bulk mutation (one POST to the corresponding
endpoint), carrying the per-kind batches of its payload. -/
inductive TraktMutation where
  | updateWatchlist (movies shows seasons episodes : List TraktAnyItem)
  | removeFromWatchlist (movies shows seasons episodes : List TraktAnyItem)
  | addRatings (movies shows seasons episodes : List TraktRatedItem)
  | addHistory (movies shows seasons episodes : List TraktWatchedItem)
deriving DecidableEq, Repr

/-- Whether a mutation removes remote state (`POST /sync/watchlist/remove`). -/
def TraktMutation.isRemoval : TraktMutation → Bool
  | .removeFromWatchlist _ _ _ _ => true
  | _ => false

/-- All identifiers carried in a mutation's payload. -/
def TraktMutation.allIds : TraktMutation → List (Option String)
  | .updateWatchlist ms ss sns es => (ms ++ ss ++ sns ++ es).map (fun it => it.ids.imdb)
  | .removeFromWatchlist ms ss sns es => (ms ++ ss ++ sns ++ es).map (fun it => it.ids.imdb)
  | .addRatings ms ss sns es => (ms ++ ss ++ sns ++ es).map (fun it => it.ids.imdb)
  | .addHistory ms ss sns es => (ms ++ ss ++ sns ++ es).map (fun it => it.ids.imdb)

/-- The episodes batch of an add-history mutation. -/
def TraktMutation.historyEpisodes : TraktMutation → List TraktWatchedItem
  | .addHistory _ _ _ es => es
  | _ => []

/-- Outcome of one mutation-applier call: skipped because all batches are
empty (only a debug log, no network request), dry-run (one
"would mutate N of kind" record per non-empty kind, no network request), or
one bulk POST.  The per-kind tally logging that follows a real POST in the
source consumes the response and performs no further mutation; it is not
modelled. -/
inductive ApplierOutcome where
  | skipEmpty
  | dryRun (logs : List (String × Nat))
  | post (m : TraktMutation)
deriving DecidableEq, Repr

/-- Whether the applier issued a network request. -/
def ApplierOutcome.isPost : ApplierOutcome → Bool
  | .post _ => true
  | _ => false

/-- The "[DRY RUN] Would ... N kind" records: one per non-empty kind, in
payload-kind order. -/
def _dry_run_logs (movies shows seasons episodes : Nat) : List (String × Nat) :=
  (if movies ≠ 0 then [("movies", movies)] else []) ++
  (if shows ≠ 0 then [("shows", shows)] else []) ++
  (if seasons ≠ 0 then [("seasons", seasons)] else []) ++
  (if episodes ≠ 0 then [("episodes", episodes)] else [])

/-- `trakt_update_watchlist`. -/
def trakt_update_watchlist (movies shows seasons episodes : List TraktAnyItem)
    (dry_run : Bool) : ApplierOutcome :=
  if movies.isEmpty && shows.isEmpty && seasons.isEmpty && episodes.isEmpty then
    .skipEmpty
  else if dry_run then
    .dryRun (_dry_run_logs movies.length shows.length seasons.length episodes.length)
  else
    .post (.updateWatchlist movies shows seasons episodes)

/-- `trakt_remove_from_watchlist`. -/
def trakt_remove_from_watchlist (movies shows seasons episodes : List TraktAnyItem)
    (dry_run : Bool) : ApplierOutcome :=
  if movies.isEmpty && shows.isEmpty && seasons.isEmpty && episodes.isEmpty then
    .skipEmpty
  else if dry_run then
    .dryRun (_dry_run_logs movies.length shows.length seasons.length episodes.length)
  else
    .post (.removeFromWatchlist movies shows seasons episodes)

/-- `trakt_add_ratings`. -/
def trakt_add_ratings (movies shows seasons episodes : List TraktRatedItem)
    (dry_run : Bool) : ApplierOutcome :=
  if movies.isEmpty && shows.isEmpty && seasons.isEmpty && episodes.isEmpty then
    .skipEmpty
  else if dry_run then
    .dryRun (_dry_run_logs movies.length shows.length seasons.length episodes.length)
  else
    .post (.addRatings movies shows seasons episodes)

/-- `trakt_add_history`. -/
def trakt_add_history (movies shows seasons episodes : List TraktWatchedItem)
    (dry_run : Bool) : ApplierOutcome :=
  if movies.isEmpty && shows.isEmpty && seasons.isEmpty && episodes.isEmpty then
    .skipEmpty
  else if dry_run then
    .dryRun (_dry_run_logs movies.length shows.length seasons.length episodes.length)
  else
    .post (.addHistory movies shows seasons episodes)

/-- The mutations actually sent over the network by a run's applier calls. -/
def _posted (outcomes : List ApplierOutcome) : List TraktMutation :=
  outcomes.filterMap (fun o => match o with | .post m => some m | _ => none)

/-- Remote-service state visible to one run: the three read snapshots, the
watching status, and the search-endpoint oracle. -/
structure TraktEnv where
  watchlist : List TraktWatchlistItem
  ratings : List TraktRatingItem
  history : List TraktHistoryItem
  watching : Option TraktWatchingItem
  search_found : Option String → MediaKind → Bool

/-- `existing_movie_imdb_ids` in `sync_watchlist`: identifiers of remote
watchlist items of kind movie, unresolvable items dropped. -/
def existing_movie_imdb_ids (existing : List TraktWatchlistItem) : List String :=
  _compact_set ((existing.filter (fun it => it.type == MediaKind.movie)).map
    (fun it => _trakt_mediaitem_imdb_id it.toTraktTypedContainer))

/-- `existing_show_imdb_ids` in `sync_watchlist`. -/
def existing_show_imdb_ids (existing : List TraktWatchlistItem) : List String :=
  _compact_set ((existing.filter (fun it => it.type == MediaKind.show)).map
    (fun it => _trakt_mediaitem_imdb_id it.toTraktTypedContainer))

/-- `imdb_movie_ids` in `sync_watchlist`: the local movie identifier set. -/
def imdb_movie_ids (items : List IMDBWatchlistItem) : List String :=
  ((items.filter (fun it => it.trakt_type == IMDBTraktType.movie)).map
    (fun it => it.imdb_id)).dedup

/-- `imdb_show_ids` in `sync_watchlist`: the local show identifier set. -/
def imdb_show_ids (items : List IMDBWatchlistItem) : List String :=
  ((items.filter (fun it => it.trakt_type == IMDBTraktType.show)).map
    (fun it => it.imdb_id)).dedup

/-- Build the `[{"ids": {"imdb": imdb}} for imdb in s]` payload list from an
identifier set. -/
def _items_of_id_set (s : List String) : List TraktAnyItem :=
  s.map (fun imdb => ⟨⟨some imdb⟩⟩)

/-- `add_movies` of `sync_watchlist` before the watching/search filters:
`imdb_movie_ids - existing_movie_imdb_ids`. -/
def watchlist_add_movies (items : List IMDBWatchlistItem)
    (existing : List TraktWatchlistItem) : List TraktAnyItem :=
  _items_of_id_set (_set_diff (imdb_movie_ids items) (existing_movie_imdb_ids existing))

/-- `add_shows` of `sync_watchlist` before the watching/search filters. -/
def watchlist_add_shows (items : List IMDBWatchlistItem)
    (existing : List TraktWatchlistItem) : List TraktAnyItem :=
  _items_of_id_set (_set_diff (imdb_show_ids items) (existing_show_imdb_ids existing))

/-- `remove_movies` of `sync_watchlist` before the watching filter:
`existing_movie_imdb_ids - imdb_movie_ids`. -/
def watchlist_remove_movies (items : List IMDBWatchlistItem)
    (existing : List TraktWatchlistItem) : List TraktAnyItem :=
  _items_of_id_set (_set_diff (existing_movie_imdb_ids existing) (imdb_movie_ids items))

/-- `remove_shows` of `sync_watchlist` before the watching filter. -/
def watchlist_remove_shows (items : List IMDBWatchlistItem)
    (existing : List TraktWatchlistItem) : List TraktAnyItem :=
  _items_of_id_set (_set_diff (existing_show_imdb_ids existing) (imdb_show_ids items))

/-- Apply the currently-watching exclusion the way the `sync_*` commands call
it: only when `trakt_watching` returned a status. -/
def _apply_watching_block {α : Type} (ids_of : α → TraktIMDBIDs)
    (items : List α) (watching : Option TraktWatchingItem) : List α :=
  match watching with
  | some w => _block_watching_items ids_of items (some w)
  | none => items

/-- The `add_movies` list of `sync_watchlist` as handed to
`trakt_update_watchlist`: diffed, watching-blocked, search-filtered. -/
def watchlist_add_movies_final (items : List IMDBWatchlistItem) (env : TraktEnv) :
    List TraktAnyItem :=
  _filter_unknown_imdb_ids env.search_found (fun it => it.ids) .movie
    (_apply_watching_block (fun it => it.ids)
      (watchlist_add_movies items env.watchlist) env.watching)

/-- The `add_shows` list of `sync_watchlist` as handed to
`trakt_update_watchlist`. -/
def watchlist_add_shows_final (items : List IMDBWatchlistItem) (env : TraktEnv) :
    List TraktAnyItem :=
  _filter_unknown_imdb_ids env.search_found (fun it => it.ids) .show
    (_apply_watching_block (fun it => it.ids)
      (watchlist_add_shows items env.watchlist) env.watching)

/-- The `remove_movies` list of `sync_watchlist` as handed to
`trakt_remove_from_watchlist` (removals are not search-filtered). -/
def watchlist_remove_movies_final (items : List IMDBWatchlistItem) (env : TraktEnv) :
    List TraktAnyItem :=
  _apply_watching_block (fun it => it.ids)
    (watchlist_remove_movies items env.watchlist) env.watching

/-- The `remove_shows` list of `sync_watchlist` as handed to
`trakt_remove_from_watchlist`. -/
def watchlist_remove_shows_final (items : List IMDBWatchlistItem) (env : TraktEnv) :
    List TraktAnyItem :=
  _apply_watching_block (fun it => it.ids)
    (watchlist_remove_shows items env.watchlist) env.watching

/-- `sync_watchlist`: one applier call to update, one to remove. -/
def sync_watchlist (items : List IMDBWatchlistItem) (env : TraktEnv)
    (dry_run : Bool) : List ApplierOutcome :=
  [trakt_update_watchlist (watchlist_add_movies_final items env)
      (watchlist_add_shows_final items env) [] [] dry_run,
   trakt_remove_from_watchlist (watchlist_remove_movies_final items env)
      (watchlist_remove_shows_final items env) [] [] dry_run]

/-- `_END_OF_DAY_TIME = time(23, 59, 59)` as a second-of-day count. -/
def _END_OF_DAY_TIME : Nat := 86399

/-- `datetime.combine(d, t)` in the numeric encoding. -/
def datetime_combine (d t : Nat) : Nat := d * 86400 + t

/-- `title_rated_at` of the `sync_ratings` loop:
`min(datetime.combine(rated_on, _END_OF_DAY_TIME), _NOW)`. -/
def title_rated_at (rated_on now : Nat) : Nat :=
  min (datetime_combine rated_on _END_OF_DAY_TIME) now

/-- The `trakt_rated` dict of `sync_ratings` as a lookup function: for each
remote rating item whose identifier extraction is truthy (present and
non-empty), bind identifier to rating; a later item overwrites an earlier
one. -/
def trakt_rated (items : List TraktRatingItem) : String → Option Int :=
  fun k =>
    items.foldl
      (fun acc it =>
        match _trakt_mediaitem_imdb_id it.toTraktTypedContainer with
        | some imdb_id => if imdb_id ≠ "" ∧ imdb_id = k then some it.rating else acc
        | none => acc)
      none

/-- `should_rate` for one local rating record: absent remotely, or present
with a different value. -/
def should_rate (rated : String → Option Int) (r : IMDBRatingItem) : Bool :=
  match rated r.imdb_id with
  | some trakt_rating => decide (r.rating ≠ trakt_rating)
  | none => true

/-- The `rated_item` payload built for one local rating record. -/
def rated_item_of (r : IMDBRatingItem) (now : Nat) : TraktRatedItem :=
  { ids := ⟨some r.imdb_id⟩,
    rated_at := title_rated_at r.rated_on now,
    rating := r.rating }

/-- The `add_movies`/`add_shows` accumulation loop of `sync_ratings`: each
record that should be rated appends one `rated_item` to the batch of its
kind (an episode-kind record matches neither `append` branch). -/
def sync_ratings_batches (rated : String → Option Int) (now : Nat) :
    List IMDBRatingItem → List TraktRatedItem × List TraktRatedItem
  | [] => ([], [])
  | r :: rest =>
    let acc := sync_ratings_batches rated now rest
    if should_rate rated r then
      match r.trakt_type with
      | .movie => (rated_item_of r now :: acc.1, acc.2)
      | .show => (acc.1, rated_item_of r now :: acc.2)
      | .episode => acc
    else acc

/-- The `add_movies` list of `sync_ratings` as handed to `trakt_add_ratings`. -/
def ratings_add_movies_final (imdb_ratings : List IMDBRatingItem) (env : TraktEnv)
    (now : Nat) : List TraktRatedItem :=
  _filter_unknown_imdb_ids env.search_found (fun it => it.ids) .movie
    (sync_ratings_batches (trakt_rated env.ratings) now imdb_ratings).1

/-- The `add_shows` list of `sync_ratings` as handed to `trakt_add_ratings`. -/
def ratings_add_shows_final (imdb_ratings : List IMDBRatingItem) (env : TraktEnv)
    (now : Nat) : List TraktRatedItem :=
  _filter_unknown_imdb_ids env.search_found (fun it => it.ids) .show
    (sync_ratings_batches (trakt_rated env.ratings) now imdb_ratings).2

/-- `sync_ratings`: one applier call.  The `trakt_rated_at`/`imdb_rated`
dicts and the `not_rated_on_imdb` set of the source feed only log lines and
are not modelled; note that `sync_ratings` performs no `trakt_watching`
call. -/
def sync_ratings (imdb_ratings : List IMDBRatingItem) (env : TraktEnv)
    (now : Nat) (dry_run : Bool) : List ApplierOutcome :=
  [trakt_add_ratings (ratings_add_movies_final imdb_ratings env now)
      (ratings_add_shows_final imdb_ratings env now) [] [] dry_run]

/-- The `imdb_id_rated_at` dict of `sync_history` as a lookup function. -/
def imdb_id_rated_at (feed : List IMDBRatingItem) : String → Option Nat :=
  fun k =>
    feed.foldl (fun acc r => if r.imdb_id = k then some r.rated_on else acc) none

/-- `imdb_movie_ids` of `sync_history`. -/
def history_imdb_movie_ids (feed : List IMDBRatingItem) : List String :=
  ((feed.filter (fun r => r.trakt_type == IMDBTraktType.movie)).map
    (fun r => r.imdb_id)).dedup

/-- `imdb_episode_ids` of `sync_history`. -/
def history_imdb_episode_ids (feed : List IMDBRatingItem) : List String :=
  ((feed.filter (fun r => r.trakt_type == IMDBTraktType.episode)).map
    (fun r => r.imdb_id)).dedup

/-- `existing_movie_imdb_ids` of `sync_history`: direct `["ids"]["imdb"]`
access, so the possibly-missing value lands in the set unfiltered. -/
def history_existing_movie_ids (history : List TraktHistoryItem) :
    List (Option String) :=
  ((history.filter (fun it => it.type == TraktWatchType.movie)).map
    (fun it => it.movie.ids.imdb)).dedup

/-- `existing_episodes_imdb_ids` of `sync_history`. -/
def history_existing_episode_ids (history : List TraktHistoryItem) :
    List (Option String) :=
  ((history.filter (fun it => it.type == TraktWatchType.episode)).map
    (fun it => it.episode.ids.imdb)).dedup

/-- Difference of a local `set[str]` against a remote `set[str | None]`. -/
def _diff_opt (l : List String) (r : List (Option String)) : List String :=
  l.filter (fun imdb => decide (some imdb ∉ r))

/-- Build the `[{"watched_at": ..., "ids": {"imdb": imdb}} for imdb in s]`
payload list. -/
def _watched_items_of (s : List String) (rated_at : String → Option Nat) :
    List TraktWatchedItem :=
  s.map (fun imdb => { ids := ⟨some imdb⟩, watched_at := rated_at imdb })

/-- `add_movies` of `sync_history` before the watching/search filters. -/
def history_add_movies (feed : List IMDBRatingItem) (env : TraktEnv) :
    List TraktWatchedItem :=
  _watched_items_of
    (_diff_opt (history_imdb_movie_ids feed) (history_existing_movie_ids env.history))
    (imdb_id_rated_at feed)

/-- `add_episodes` of `sync_history` before the watching/search filters. -/
def history_add_episodes (feed : List IMDBRatingItem) (env : TraktEnv) :
    List TraktWatchedItem :=
  _watched_items_of
    (_diff_opt (history_imdb_episode_ids feed) (history_existing_episode_ids env.history))
    (imdb_id_rated_at feed)

/-- The `add_movies` list of `sync_history` as handed to `trakt_add_history`. -/
def history_add_movies_final (feed : List IMDBRatingItem) (env : TraktEnv) :
    List TraktWatchedItem :=
  _filter_unknown_imdb_ids env.search_found (fun it => it.ids) .movie
    (_apply_watching_block (fun it => it.ids) (history_add_movies feed env) env.watching)

/-- The `add_episodes` list of `sync_history` as handed to
`trakt_add_history`. -/
def history_add_episodes_final (feed : List IMDBRatingItem) (env : TraktEnv) :
    List TraktWatchedItem :=
  _filter_unknown_imdb_ids env.search_found (fun it => it.ids) .episode
    (_apply_watching_block (fun it => it.ids) (history_add_episodes feed env) env.watching)

/-- `sync_history`: one applier call
(`trakt_add_history(movies=..., episodes=...)`, shows and seasons left at
their empty defaults). -/
def sync_history (feed : List IMDBRatingItem) (env : TraktEnv)
    (dry_run : Bool) : List ApplierOutcome :=
  [trakt_add_history (history_add_movies_final feed env) [] []
      (history_add_episodes_final feed env) dry_run]

/-- A transport failure (`requests.HTTPError`), carrying the status code. -/
structure TransportError where
  status : Nat
deriving DecidableEq, Repr

/-- `response.raise_for_status()`: the `requests` library raises exactly for
status codes in `[400, 600)`. -/
def raise_for_status (status : Nat) : Except TransportError Unit :=
  if 400 ≤ status ∧ status < 600 then .error ⟨status⟩ else .ok ()

/-- HTTP method (`Literal["GET", "POST", "PUT", "DELETE"]`). -/
inductive HTTPMethod where
  | GET
  | POST
  | PUT
  | DELETE
deriving DecidableEq, Repr

/-- `trakt_request` reduced to its observable control flow for a response
with the given status: raise for an error status, otherwise sleep one second
when the method is not GET.  The result lists the sleep durations performed
after the call. -/
def trakt_request_effects (method : HTTPMethod) (status : Nat) :
    Except TransportError (List Nat) :=
  match raise_for_status status with
  | .error e => .error e
  | .ok _ => .ok (if method ≠ .GET then [1] else [])

/-- The `/users/me/watching` response: its status and, when a body was
returned and parsed, the decoded record. -/
structure WatchingResponse where
  status : Nat
  body : Option TraktWatchingItem

/-- `trakt_watching`: the request first passes through `trakt_request`
(which raises for a `[400, 600)` status); then 200 returns the decoded body,
204 returns "not watching", and any other surviving status reaches a
`raise_for_status` retry that cannot fire and falls through to `None`. -/
def trakt_watching (resp : WatchingResponse) :
    Except TransportError (Option TraktWatchingItem) :=
  match raise_for_status resp.status with
  | .error e => .error e
  | .ok _ =>
    if resp.status = 200 then .ok resp.body
    else if resp.status = 204 then .ok none
    else
      match raise_for_status resp.status with
      | .error e => .error e
      | .ok _ => .ok none

/-- `X-Pagination-*` response headers (`TraktPagination`). -/
structure TraktPagination where
  page : Nat
  limit : Nat
  page_count : Nat
  item_count : Nat
deriving DecidableEq, Repr

/-- One page response of a paginated endpoint: its item list and its
pagination headers. -/
structure PageResponse (α : Type) where
  items : List α
  pagination : TraktPagination
deriving DecidableEq, Repr

/-- The `while True` loop of `trakt_request_paginated`, as a fuel-indexed
function over a per-page fetch (`fetch p` is the outcome of requesting
`params={"page": p, "limit": limit}`).  The result accumulates the requested
page numbers and the concatenated items; `none` means the fuel budget did not
cover the loop (the source's loop has no bound of its own and terminates only
through the header comparison `page >= page_count`). -/
def _paginate_loop {α : Type}
    (fetch : Nat → Except TransportError (PageResponse α)) :
    Nat → Nat → Option (Except TransportError (List Nat × List α))
  | _, 0 => none
  | page, fuel + 1 =>
    match fetch page with
    | .error e => some (.error e)
    | .ok resp =>
      if resp.pagination.page ≥ resp.pagination.page_count then
        some (.ok ([page], resp.items))
      else
        match _paginate_loop fetch (page + 1) fuel with
        | none => none
        | some (.error e) => some (.error e)
        | some (.ok (pages, items)) => some (.ok (page :: pages, resp.items ++ items))

/-- `trakt_request_paginated`: start the loop at page 1. -/
def trakt_request_paginated {α : Type}
    (fetch : Nat → Except TransportError (PageResponse α)) (fuel : Nat) :
    Option (Except TransportError (List Nat × List α)) :=
  _paginate_loop fetch 1 fuel

/-- A server with consistent pagination headers: every page request succeeds,
echoes the requested page number and reports a fixed page count. -/
def _ok_server {α : Type} (pages : Nat → List α) (page_count limit item_count : Nat) :
    Nat → Except TransportError (PageResponse α) :=
  fun p => .ok ⟨pages p, ⟨p, limit, page_count, item_count⟩⟩

/-- A server with consistent pagination headers that fails with a transport
error from page `k` onward. -/
def _failing_server {α : Type} (pages : Nat → List α)
    (page_count limit item_count k : Nat) (e : TransportError) :
    Nat → Except TransportError (PageResponse α) :=
  fun p => if k ≤ p then .error e else _ok_server pages page_count limit item_count p

/-! ### Helper lemmas -/

lemma _posted_of_match {o : ApplierOutcome} {m : TraktMutation}
    (h : (match o with | .post m' => some m' | _ => none) = some m) :
    o = .post m := by
  cases o <;> simp_all

lemma mem_posted_iff {outcomes : List ApplierOutcome} {m : TraktMutation} :
    m ∈ _posted outcomes ↔ ∃ o ∈ outcomes, o = .post m := by
  constructor
  · intro h
    obtain ⟨o, ho, hfo⟩ := List.mem_filterMap.mp h
    exact ⟨o, ho, _posted_of_match hfo⟩
  · rintro ⟨o, ho, rfl⟩
    exact List.mem_filterMap.mpr ⟨_, ho, rfl⟩

lemma trakt_update_watchlist_post {a b c d : List TraktAnyItem} {dry : Bool}
    {m : TraktMutation} (h : trakt_update_watchlist a b c d dry = .post m) :
    m = .updateWatchlist a b c d ∧ dry = false := by
  unfold trakt_update_watchlist at h
  split at h
  · exact absurd h (by simp)
  · split at h
    · exact absurd h (by simp)
    · exact ⟨by injection h with h'; exact h'.symm, by simp_all⟩

lemma trakt_remove_from_watchlist_post {a b c d : List TraktAnyItem} {dry : Bool}
    {m : TraktMutation} (h : trakt_remove_from_watchlist a b c d dry = .post m) :
    m = .removeFromWatchlist a b c d ∧ dry = false := by
  unfold trakt_remove_from_watchlist at h
  split at h
  · exact absurd h (by simp)
  · split at h
    · exact absurd h (by simp)
    · exact ⟨by injection h with h'; exact h'.symm, by simp_all⟩

lemma trakt_add_ratings_post {a b c d : List TraktRatedItem} {dry : Bool}
    {m : TraktMutation} (h : trakt_add_ratings a b c d dry = .post m) :
    m = .addRatings a b c d ∧ dry = false := by
  unfold trakt_add_ratings at h
  split at h
  · exact absurd h (by simp)
  · split at h
    · exact absurd h (by simp)
    · exact ⟨by injection h with h'; exact h'.symm, by simp_all⟩

lemma trakt_add_history_post {a b c d : List TraktWatchedItem} {dry : Bool}
    {m : TraktMutation} (h : trakt_add_history a b c d dry = .post m) :
    m = .addHistory a b c d ∧ dry = false := by
  unfold trakt_add_history at h
  split at h
  · exact absurd h (by simp)
  · split at h
    · exact absurd h (by simp)
    · exact ⟨by injection h with h'; exact h'.symm, by simp_all⟩

lemma sync_watchlist_posted_shape {items : List IMDBWatchlistItem} {env : TraktEnv}
    {dry : Bool} {m : TraktMutation} (hm : m ∈ _posted (sync_watchlist items env dry)) :
    m = .updateWatchlist (watchlist_add_movies_final items env)
          (watchlist_add_shows_final items env) [] [] ∨
    m = .removeFromWatchlist (watchlist_remove_movies_final items env)
          (watchlist_remove_shows_final items env) [] [] := by
  obtain ⟨o, ho, hpost⟩ := mem_posted_iff.mp hm
  rcases List.mem_cons.mp ho with rfl | ho'
  · exact Or.inl (trakt_update_watchlist_post hpost).1
  · rcases List.mem_cons.mp ho' with rfl | ho''
    · exact Or.inr (trakt_remove_from_watchlist_post hpost).1
    · cases ho''

lemma sync_ratings_posted_shape {feed : List IMDBRatingItem} {env : TraktEnv}
    {now : Nat} {dry : Bool} {m : TraktMutation}
    (hm : m ∈ _posted (sync_ratings feed env now dry)) :
    m = .addRatings (ratings_add_movies_final feed env now)
          (ratings_add_shows_final feed env now) [] [] := by
  obtain ⟨o, ho, hpost⟩ := mem_posted_iff.mp hm
  rcases List.mem_cons.mp ho with rfl | ho'
  · exact (trakt_add_ratings_post hpost).1
  · cases ho'

lemma sync_history_posted_shape {feed : List IMDBRatingItem} {env : TraktEnv}
    {dry : Bool} {m : TraktMutation}
    (hm : m ∈ _posted (sync_history feed env dry)) :
    m = .addHistory (history_add_movies_final feed env) [] []
          (history_add_episodes_final feed env) := by
  obtain ⟨o, ho, hpost⟩ := mem_posted_iff.mp hm
  rcases List.mem_cons.mp ho with rfl | ho'
  · exact (trakt_add_history_post hpost).1
  · cases ho'

lemma mem_of_mem_filter_unknown {α : Type}
    {f : Option String → MediaKind → Bool} {ids_of : α → TraktIMDBIDs}
    {ty : MediaKind} {l : List α} {it : α}
    (h : it ∈ _filter_unknown_imdb_ids f ids_of ty l) : it ∈ l :=
  List.mem_of_mem_filter h

lemma mem_apply_watching_block_ne {α : Type} {ids_of : α → TraktIMDBIDs}
    {l : List α} {w : TraktWatchingItem} {it : α}
    (h : it ∈ _apply_watching_block ids_of l (some w)) :
    (ids_of it).imdb ≠ trakt_watching_imdb_id w := by
  have h' := (List.mem_filter.mp h).2
  exact bne_iff_ne.mp h'

/-- Number of items of a rated batch carrying a given identifier. -/
def _count_id (l : List TraktRatedItem) (imdb : String) : Nat :=
  (l.filter (fun it => it.ids.imdb == some imdb)).length

lemma _count_id_append (l₁ l₂ : List TraktRatedItem) (imdb : String) :
    _count_id (l₁ ++ l₂) imdb = _count_id l₁ imdb + _count_id l₂ imdb := by
  simp [_count_id, List.filter_append]

lemma _count_id_cons (x : TraktRatedItem) (l : List TraktRatedItem) (imdb : String) :
    _count_id (x :: l) imdb
      = (if x.ids.imdb = some imdb then 1 else 0) + _count_id l imdb := by
  by_cases h : x.ids.imdb = some imdb <;>
    simp [_count_id, List.filter_cons, h, Nat.add_comm]

lemma rated_item_of_ids (r : IMDBRatingItem) (now : Nat) :
    (rated_item_of r now).ids.imdb = some r.imdb_id := rfl

lemma sync_ratings_batches_count (rated : String → Option Int) (now : Nat)
    (feed : List IMDBRatingItem) (imdb : String) :
    _count_id ((sync_ratings_batches rated now feed).1
        ++ (sync_ratings_batches rated now feed).2) imdb
      = (feed.filter (fun r => r.imdb_id == imdb
          && (should_rate rated r && r.trakt_type != IMDBTraktType.episode))).length := by
  induction feed with
  | nil => simp [sync_ratings_batches, _count_id]
  | cons r rest ih =>
    have ihn := ih
    rw [_count_id_append] at ihn
    cases hs : should_rate rated r with
    | false =>
      simp only [sync_ratings_batches, hs, Bool.false_eq_true, if_false,
        List.filter_cons, Bool.false_and, Bool.and_false]
      exact ih
    | true =>
      cases ht : r.trakt_type
      · simp only [sync_ratings_batches, hs, if_true, ht]
        rw [List.cons_append, _count_id_cons, _count_id_append, List.filter_cons]
        by_cases hid : r.imdb_id = imdb <;>
          simp [hid, rated_item_of_ids, hs, ht,
            show (IMDBTraktType.movie != IMDBTraktType.episode) = true from rfl] <;>
          omega
      · simp only [sync_ratings_batches, hs, if_true, ht]
        rw [_count_id_append, _count_id_cons, List.filter_cons]
        by_cases hid : r.imdb_id = imdb <;>
          simp [hid, rated_item_of_ids, hs, ht,
            show (IMDBTraktType.show != IMDBTraktType.episode) = true from rfl] <;>
          omega
      · simp only [sync_ratings_batches, hs, if_true, ht]
        rw [_count_id_append, List.filter_cons]
        simp only [ht, show (IMDBTraktType.episode != IMDBTraktType.episode) = false from rfl,
          Bool.and_false, Bool.false_eq_true, if_false]
        exact ihn

lemma rated_item_mem_batches (rated : String → Option Int) (now : Nat)
    (feed : List IMDBRatingItem) (r : IMDBRatingItem)
    (hr : r ∈ feed) (hs : should_rate rated r = true) :
    (r.trakt_type = .movie →
      rated_item_of r now ∈ (sync_ratings_batches rated now feed).1) ∧
    (r.trakt_type = .show →
      rated_item_of r now ∈ (sync_ratings_batches rated now feed).2) := by
  induction feed with
  | nil => cases hr
  | cons x rest ih =>
    rcases List.mem_cons.mp hr with rfl | hmem
    · constructor <;> intro ht <;> simp [sync_ratings_batches, hs, ht]
    · have hih := ih hmem
      refine ⟨fun ht => ?_, fun ht => ?_⟩
      · have hx := hih.1 ht
        cases hsx : should_rate rated x <;> cases htx : x.trakt_type <;>
          simp [sync_ratings_batches, hsx, htx] <;>
          first
          | exact hx
          | exact Or.inr hx
      · have hx := hih.2 ht
        cases hsx : should_rate rated x <;> cases htx : x.trakt_type <;>
          simp [sync_ratings_batches, hsx, htx] <;>
          first
          | exact hx
          | exact Or.inr hx

lemma batches_mem_provenance (rated : String → Option Int) (now : Nat)
    (feed : List IMDBRatingItem) (it : TraktRatedItem)
    (hit : it ∈ (sync_ratings_batches rated now feed).1
        ++ (sync_ratings_batches rated now feed).2) :
    ∃ r ∈ feed, it = rated_item_of r now := by
  induction feed with
  | nil => simp [sync_ratings_batches] at hit
  | cons x rest ih =>
    by_cases hsx : should_rate rated x
    · cases htx : x.trakt_type
      · simp only [sync_ratings_batches, hsx, if_true, htx, List.cons_append,
          List.mem_cons] at hit
        rcases hit with rfl | hm
        · exact ⟨x, List.mem_cons_self x rest, rfl⟩
        · obtain ⟨r, hr, he⟩ := ih hm
          exact ⟨r, List.mem_cons_of_mem x hr, he⟩
      · simp only [sync_ratings_batches, hsx, if_true, htx, List.mem_append,
          List.mem_cons] at hit
        rcases hit with hm | (rfl | hm)
        · obtain ⟨r, hr, he⟩ := ih (List.mem_append.mpr (Or.inl hm))
          exact ⟨r, List.mem_cons_of_mem x hr, he⟩
        · exact ⟨x, List.mem_cons_self x rest, rfl⟩
        · obtain ⟨r, hr, he⟩ := ih (List.mem_append.mpr (Or.inr hm))
          exact ⟨r, List.mem_cons_of_mem x hr, he⟩
      · simp only [sync_ratings_batches, hsx, if_true, htx] at hit
        obtain ⟨r, hr, he⟩ := ih hit
        exact ⟨r, List.mem_cons_of_mem x hr, he⟩
    · simp only [sync_ratings_batches, hsx] at hit
      rw [if_neg (by simp [hsx])] at hit
      obtain ⟨r, hr, he⟩ := ih hit
      exact ⟨r, List.mem_cons_of_mem x hr, he⟩

lemma filter_by_id_of_nodup (feed : List IMDBRatingItem) (r : IMDBRatingItem)
    (hnd : (feed.map IMDBRatingItem.imdb_id).Nodup) (hr : r ∈ feed)
    (p : IMDBRatingItem → Bool) :
    (feed.filter (fun x => x.imdb_id == r.imdb_id && p x)).length
      = if p r then 1 else 0 := by
  induction feed with
  | nil => cases hr
  | cons x rest ih =>
    have hnd' : x.imdb_id ∉ rest.map IMDBRatingItem.imdb_id ∧
        (rest.map IMDBRatingItem.imdb_id).Nodup := by
      rw [List.map_cons, List.nodup_cons] at hnd
      exact hnd
    rcases List.mem_cons.mp hr with rfl | hmem
    · have hrest : rest.filter (fun y => y.imdb_id == r.imdb_id && p y) = [] := by
        rw [List.filter_eq_nil_iff]
        intro a ha
        have hne : a.imdb_id ≠ r.imdb_id := by
          intro he
          exact hnd'.1 (he ▸ List.mem_map_of_mem IMDBRatingItem.imdb_id ha)
        simp [hne]
      cases hp : p r <;> simp [List.filter_cons, hp, hrest]
    · have hne : x.imdb_id ≠ r.imdb_id := by
        intro he
        exact hnd'.1 (he.symm ▸ List.mem_map_of_mem IMDBRatingItem.imdb_id hmem)
      rw [List.filter_cons, if_neg (by simp [hne])]
      exact ih hnd'.2 hmem

lemma dedup_map_filter_dedup {α β : Type} [DecidableEq α] [DecidableEq β]
    (l : List α) (p : α → Bool) (f : α → β) :
    ((l.dedup.filter p).map f).dedup = ((l.filter p).map f).dedup := by
  induction l with
  | nil => simp
  | cons a l ih =>
    by_cases ha : a ∈ l
    · rw [List.dedup_cons_of_mem ha, List.filter_cons]
      by_cases hp : p a
      · have hfa : f a ∈ (l.filter p).map f :=
          List.mem_map_of_mem f (List.mem_filter.mpr ⟨ha, hp⟩)
        rw [if_pos hp, List.map_cons, List.dedup_cons_of_mem hfa]
        exact ih
      · rw [if_neg hp]
        exact ih
    · rw [List.dedup_cons_of_not_mem ha, List.filter_cons, List.filter_cons]
      by_cases hp : p a
      · rw [if_pos hp, if_pos hp, List.map_cons, List.map_cons]
        by_cases hfa : f a ∈ (l.filter p).map f
        · have hfa' : f a ∈ (l.dedup.filter p).map f := by
            obtain ⟨b, hb, he⟩ := List.mem_map.mp hfa
            have hb' := List.mem_filter.mp hb
            exact he ▸ List.mem_map_of_mem f
              (List.mem_filter.mpr ⟨List.mem_dedup.mpr hb'.1, hb'.2⟩)
          rw [List.dedup_cons_of_mem hfa, List.dedup_cons_of_mem hfa']
          exact ih
        · have hfa' : f a ∉ (l.dedup.filter p).map f := by
            intro hmem
            obtain ⟨b, hb, he⟩ := List.mem_map.mp hmem
            have hb' := List.mem_filter.mp hb
            exact hfa (he ▸ List.mem_map_of_mem f
              (List.mem_filter.mpr ⟨List.mem_dedup.mp hb'.1, hb'.2⟩))
          rw [List.dedup_cons_of_not_mem hfa, List.dedup_cons_of_not_mem hfa', ih]
      · rw [if_neg hp, if_neg hp]
        exact ih

lemma _paginate_loop_ok_server {α : Type} (pages : Nat → List α)
    (N L C : Nat) :
    ∀ fuel p, 0 < p → max p N + 1 - p ≤ fuel →
      _paginate_loop (_ok_server pages N L C) p fuel
        = some (.ok (List.range' p (max p N + 1 - p),
            (List.range' p (max p N + 1 - p)).flatMap pages)) := by
  intro fuel
  induction fuel with
  | zero =>
    intro p hp hf
    have := Nat.le_max_left p N
    omega
  | succ fuel ih =>
    intro p hp hf
    by_cases hpN : N ≤ p
    · have hmax : max p N = p := Nat.max_eq_left hpN
      simp only [_paginate_loop, _ok_server, ge_iff_le, hpN, if_pos]
      rw [hmax]
      simp
    · have hmax : max p N = N := Nat.max_eq_right (Nat.le_of_not_le hpN)
      have hlt : p < N := Nat.lt_of_not_le hpN
      have hrec := ih (p + 1) (Nat.succ_pos p)
        (by have := Nat.le_max_left (p + 1) N; have h2 := Nat.max_eq_right (Nat.succ_le_of_lt hlt); omega)
      simp only [_paginate_loop, _ok_server, ge_iff_le, if_neg hpN]
      rw [hrec]
      have hm2 : max (p + 1) N = N := Nat.max_eq_right (Nat.succ_le_of_lt hlt)
      rw [hm2, hmax]
      have hcount : N + 1 - p = (N + 1 - (p + 1)) + 1 := by omega
      rw [hcount, List.range'_succ, List.flatMap_cons]

lemma _paginate_loop_fail_server {α : Type} (pages : Nat → List α)
    (N L C k : Nat) (e : TransportError) (hq : ∀ q, 0 < q → q < k → q < N) :
    ∀ fuel p, 0 < p → p ≤ k → k + 1 - p ≤ fuel →
      _paginate_loop (_failing_server pages N L C k e) p fuel
        = some (.error e) := by
  intro fuel
  induction fuel with
  | zero =>
    intro p hp hpk hf
    omega
  | succ fuel ih =>
    intro p hp hpk hf
    by_cases hkp : k ≤ p
    · have : p = k := Nat.le_antisymm hpk hkp
      simp [_paginate_loop, _failing_server, hkp]
    · have hplt : p < k := Nat.lt_of_not_le hkp
      have hpN : p < N := hq p hp hplt
      simp only [_paginate_loop, _failing_server, if_neg hkp, _ok_server,
        ge_iff_le, if_neg (Nat.not_le_of_lt hpN)]
      rw [ih (p + 1) (Nat.succ_pos p) hplt (by omega)]

lemma _dry_run_logs_spec (a b c d : Nat) :
    (("movies", a) ∈ _dry_run_logs a b c d ↔ a ≠ 0) ∧
    (("shows", b) ∈ _dry_run_logs a b c d ↔ b ≠ 0) ∧
    (("seasons", c) ∈ _dry_run_logs a b c d ↔ c ≠ 0) ∧
    (("episodes", d) ∈ _dry_run_logs a b c d ↔ d ≠ 0) ∧
    (_dry_run_logs a b c d).length
      = (if a = 0 then 0 else 1) + (if b = 0 then 0 else 1)
        + (if c = 0 then 0 else 1) + (if d = 0 then 0 else 1) := by
  have h1 : ("movies" : String) ≠ "shows" := by decide
  have h2 : ("movies" : String) ≠ "seasons" := by decide
  have h3 : ("movies" : String) ≠ "episodes" := by decide
  have h4 : ("shows" : String) ≠ "movies" := by decide
  have h5 : ("shows" : String) ≠ "seasons" := by decide
  have h6 : ("shows" : String) ≠ "episodes" := by decide
  have h7 : ("seasons" : String) ≠ "movies" := by decide
  have h8 : ("seasons" : String) ≠ "shows" := by decide
  have h9 : ("seasons" : String) ≠ "episodes" := by decide
  have h10 : ("episodes" : String) ≠ "movies" := by decide
  have h11 : ("episodes" : String) ≠ "shows" := by decide
  have h12 : ("episodes" : String) ≠ "seasons" := by decide
  by_cases ha : a = 0 <;> by_cases hb : b = 0 <;> by_cases hc : c = 0 <;>
    by_cases hd : d = 0 <;>
    simp [_dry_run_logs, ha, hb, hc, hd, Prod.ext_iff,
      h1, h2, h3, h4, h5, h6, h7, h8, h9, h10, h11, h12]

lemma trakt_update_watchlist_outcomes (ms ss sns es : List TraktAnyItem) (dry : Bool) :
    ((trakt_update_watchlist ms ss sns es dry).isPost
        = (!dry && !(ms.isEmpty && ss.isEmpty && sns.isEmpty && es.isEmpty))) ∧
    ((ms.isEmpty && ss.isEmpty && sns.isEmpty && es.isEmpty) = true →
        trakt_update_watchlist ms ss sns es dry = .skipEmpty) ∧
    (dry = true → (ms.isEmpty && ss.isEmpty && sns.isEmpty && es.isEmpty) = false →
        trakt_update_watchlist ms ss sns es dry
          = .dryRun (_dry_run_logs ms.length ss.length sns.length es.length)) := by
  cases h : (ms.isEmpty && ss.isEmpty && sns.isEmpty && es.isEmpty) <;>
    cases dry <;>
      simp [trakt_update_watchlist, h, ApplierOutcome.isPost]

lemma trakt_remove_from_watchlist_outcomes (ms ss sns es : List TraktAnyItem) (dry : Bool) :
    ((trakt_remove_from_watchlist ms ss sns es dry).isPost
        = (!dry && !(ms.isEmpty && ss.isEmpty && sns.isEmpty && es.isEmpty))) ∧
    ((ms.isEmpty && ss.isEmpty && sns.isEmpty && es.isEmpty) = true →
        trakt_remove_from_watchlist ms ss sns es dry = .skipEmpty) ∧
    (dry = true → (ms.isEmpty && ss.isEmpty && sns.isEmpty && es.isEmpty) = false →
        trakt_remove_from_watchlist ms ss sns es dry
          = .dryRun (_dry_run_logs ms.length ss.length sns.length es.length)) := by
  cases h : (ms.isEmpty && ss.isEmpty && sns.isEmpty && es.isEmpty) <;>
    cases dry <;>
      simp [trakt_remove_from_watchlist, h, ApplierOutcome.isPost]

lemma trakt_add_ratings_outcomes (ms ss sns es : List TraktRatedItem) (dry : Bool) :
    ((trakt_add_ratings ms ss sns es dry).isPost
        = (!dry && !(ms.isEmpty && ss.isEmpty && sns.isEmpty && es.isEmpty))) ∧
    ((ms.isEmpty && ss.isEmpty && sns.isEmpty && es.isEmpty) = true →
        trakt_add_ratings ms ss sns es dry = .skipEmpty) ∧
    (dry = true → (ms.isEmpty && ss.isEmpty && sns.isEmpty && es.isEmpty) = false →
        trakt_add_ratings ms ss sns es dry
          = .dryRun (_dry_run_logs ms.length ss.length sns.length es.length)) := by
  cases h : (ms.isEmpty && ss.isEmpty && sns.isEmpty && es.isEmpty) <;>
    cases dry <;>
      simp [trakt_add_ratings, h, ApplierOutcome.isPost]

lemma trakt_add_history_outcomes (ms ss sns es : List TraktWatchedItem) (dry : Bool) :
    ((trakt_add_history ms ss sns es dry).isPost
        = (!dry && !(ms.isEmpty && ss.isEmpty && sns.isEmpty && es.isEmpty))) ∧
    ((ms.isEmpty && ss.isEmpty && sns.isEmpty && es.isEmpty) = true →
        trakt_add_history ms ss sns es dry = .skipEmpty) ∧
    (dry = true → (ms.isEmpty && ss.isEmpty && sns.isEmpty && es.isEmpty) = false →
        trakt_add_history ms ss sns es dry
          = .dryRun (_dry_run_logs ms.length ss.length sns.length es.length)) := by
  cases h : (ms.isEmpty && ss.isEmpty && sns.isEmpty && es.isEmpty) <;>
    cases dry <;>
      simp [trakt_add_history, h, ApplierOutcome.isPost]

lemma _imdb_title_type_not_episode {t : String} {k : IMDBTraktType}
    (h : _imdb_title_type t = some k) : k ≠ .episode := by
  unfold _imdb_title_type at h
  split at h
  · injection h with h'
    subst h'
    simp
  · split at h
    · injection h with h'
      subst h'
      simp
    · cases h

lemma fetch_imdb_ratings_no_episode {rows : List CSVRatingRow}
    {items : List IMDBRatingItem} (h : fetch_imdb_ratings rows = .ok items) :
    ∀ r ∈ items, r.trakt_type ≠ .episode := by
  induction rows generalizing items with
  | nil =>
    simp only [fetch_imdb_ratings] at h
    injection h with h'
    subst h'
    simp
  | cons row rest ih =>
    simp only [fetch_imdb_ratings] at h
    split at h
    · cases h
    · split at h
      · cases h
      · rename_i t ht
        cases hrest : fetch_imdb_ratings rest with
        | error e => rw [hrest] at h; cases h
        | ok l =>
          rw [hrest] at h
          injection h with h'
          subst h'
          intro r hrmem
          rcases List.mem_cons.mp hrmem with rfl | hmem
          · exact _imdb_title_type_not_episode ht
          · exact ih hrest r hmem

/-! ### Claim theorems -/

/-- C6 counterexample: the claim says every non-2xx response raises a
transport error, but `raise_for_status` raises only for `[400, 600)`; a 304
response makes `trakt_watching` fall through to `None` without error. -/
theorem trakt_watching_non2xx_cex :
    ¬ ∀ (resp : WatchingResponse), (resp.status < 200 ∨ 300 ≤ resp.status) →
        ∃ e, trakt_watching resp = Except.error e := by
  intro h
  obtain ⟨e, he⟩ := h ⟨304, none⟩ (Or.inr (by decide))
  rw [show trakt_watching ⟨304, none⟩ = .ok none from rfl] at he
  exact Except.noConfusion he

/-- C6 (amended): `watching()` returns the watching record on a 200 response,
returns "not watching" on a 204 response without raising, raises a transport
error for every response with status in `[400, 600)` (4xx/5xx), and returns
"not watching" without error for any other status below 400. -/
theorem trakt_watching_status_spec (resp : WatchingResponse) :
    (resp.status = 200 → trakt_watching resp = .ok resp.body) ∧
    (resp.status = 204 → trakt_watching resp = .ok none) ∧
    (400 ≤ resp.status → resp.status < 600 →
      trakt_watching resp = .error ⟨resp.status⟩) ∧
    (resp.status < 400 → resp.status ≠ 200 → resp.status ≠ 204 →
      trakt_watching resp = .ok none) := by
  obtain ⟨s, b⟩ := resp
  refine ⟨fun h => ?_, fun h => ?_, fun h1 h2 => ?_, fun h1 h2 h3 => ?_⟩
  · subst h; rfl
  · subst h; rfl
  · have hin : 400 ≤ s ∧ s < 600 := ⟨h1, h2⟩
    simp [trakt_watching, raise_for_status, hin]
  · have h1' : s < 400 := h1
    have hne : ¬(400 ≤ s ∧ s < 600) := by omega
    simp [trakt_watching, raise_for_status, hne, h2, h3]

/-- C6 witness: a 204 response maps to "not watching" without error. -/
theorem trakt_watching_status_spec_witness :
    trakt_watching ⟨204, none⟩ = .ok none :=
  (trakt_watching_status_spec ⟨204, none⟩).2.1 rfl

/-- C7: each of the four mutation appliers issues a network request exactly
when dry-run is inactive and some per-kind batch is non-empty; with dry-run
active and a non-empty batch it only logs one "would mutate N of kind" record
per non-empty kind; with all batches empty it makes no request at all. -/
theorem mutation_applier_spec (ams ass asns aes : List TraktAnyItem)
    (rms rss rsns rses : List TraktRatedItem)
    (hms hss hsns hses : List TraktWatchedItem)
    (dry : Bool) (a b c d : Nat) :
    (((trakt_update_watchlist ams ass asns aes dry).isPost
        = (!dry && !(ams.isEmpty && ass.isEmpty && asns.isEmpty && aes.isEmpty))) ∧
      ((ams.isEmpty && ass.isEmpty && asns.isEmpty && aes.isEmpty) = true →
        trakt_update_watchlist ams ass asns aes dry = .skipEmpty) ∧
      (dry = true → (ams.isEmpty && ass.isEmpty && asns.isEmpty && aes.isEmpty) = false →
        trakt_update_watchlist ams ass asns aes dry
          = .dryRun (_dry_run_logs ams.length ass.length asns.length aes.length))) ∧
    (((trakt_remove_from_watchlist ams ass asns aes dry).isPost
        = (!dry && !(ams.isEmpty && ass.isEmpty && asns.isEmpty && aes.isEmpty))) ∧
      ((ams.isEmpty && ass.isEmpty && asns.isEmpty && aes.isEmpty) = true →
        trakt_remove_from_watchlist ams ass asns aes dry = .skipEmpty) ∧
      (dry = true → (ams.isEmpty && ass.isEmpty && asns.isEmpty && aes.isEmpty) = false →
        trakt_remove_from_watchlist ams ass asns aes dry
          = .dryRun (_dry_run_logs ams.length ass.length asns.length aes.length))) ∧
    (((trakt_add_ratings rms rss rsns rses dry).isPost
        = (!dry && !(rms.isEmpty && rss.isEmpty && rsns.isEmpty && rses.isEmpty))) ∧
      ((rms.isEmpty && rss.isEmpty && rsns.isEmpty && rses.isEmpty) = true →
        trakt_add_ratings rms rss rsns rses dry = .skipEmpty) ∧
      (dry = true → (rms.isEmpty && rss.isEmpty && rsns.isEmpty && rses.isEmpty) = false →
        trakt_add_ratings rms rss rsns rses dry
          = .dryRun (_dry_run_logs rms.length rss.length rsns.length rses.length))) ∧
    (((trakt_add_history hms hss hsns hses dry).isPost
        = (!dry && !(hms.isEmpty && hss.isEmpty && hsns.isEmpty && hses.isEmpty))) ∧
      ((hms.isEmpty && hss.isEmpty && hsns.isEmpty && hses.isEmpty) = true →
        trakt_add_history hms hss hsns hses dry = .skipEmpty) ∧
      (dry = true → (hms.isEmpty && hss.isEmpty && hsns.isEmpty && hses.isEmpty) = false →
        trakt_add_history hms hss hsns hses dry
          = .dryRun (_dry_run_logs hms.length hss.length hsns.length hses.length))) ∧
    ((("movies", a) ∈ _dry_run_logs a b c d ↔ a ≠ 0) ∧
      (("shows", b) ∈ _dry_run_logs a b c d ↔ b ≠ 0) ∧
      (("seasons", c) ∈ _dry_run_logs a b c d ↔ c ≠ 0) ∧
      (("episodes", d) ∈ _dry_run_logs a b c d ↔ d ≠ 0) ∧
      (_dry_run_logs a b c d).length
        = (if a = 0 then 0 else 1) + (if b = 0 then 0 else 1)
          + (if c = 0 then 0 else 1) + (if d = 0 then 0 else 1)) :=
  ⟨trakt_update_watchlist_outcomes ams ass asns aes dry,
   trakt_remove_from_watchlist_outcomes ams ass asns aes dry,
   trakt_add_ratings_outcomes rms rss rsns rses dry,
   trakt_add_history_outcomes hms hss hsns hses dry,
   _dry_run_logs_spec a b c d⟩

/-- C7 witness: a dry run with one movie logs one "would add 1 movies" record
(and the theorem's skip clause applies to empty batches). -/
theorem mutation_applier_spec_witness :
    trakt_update_watchlist [⟨⟨some "tt0000021"⟩⟩] [] [] [] true
      = .dryRun [("movies", 1)] :=
  ((mutation_applier_spec [⟨⟨some "tt0000021"⟩⟩] [] [] [] [] [] [] [] [] [] [] []
    true 1 0 0 0).1.2.2 rfl (by decide)).trans rfl

/-- C8: under the header-driven pacing, a successful non-GET request is
followed by exactly one flat 1-second suspension, a successful GET request by
none, and an error-status response raises instead. -/
theorem trakt_request_sleep_spec (method : HTTPMethod) (status : Nat)
    (h : ¬(400 ≤ status ∧ status < 600)) :
    (method ≠ HTTPMethod.GET → trakt_request_effects method status = .ok [1]) ∧
    (method = HTTPMethod.GET → trakt_request_effects method status = .ok []) ∧
    (∀ s, 400 ≤ s → s < 600 → trakt_request_effects method s = .error ⟨s⟩) := by
  refine ⟨fun hm => ?_, fun hm => ?_, fun s h1 h2 => ?_⟩
  · simp [trakt_request_effects, raise_for_status, h, hm]
  · subst hm
    simp [trakt_request_effects, raise_for_status, h]
  · have hin : 400 ≤ s ∧ s < 600 := ⟨h1, h2⟩
    simp [trakt_request_effects, raise_for_status, hin]

/-- C8 witness: a successful POST sleeps for 1 second. -/
theorem trakt_request_sleep_spec_witness :
    trakt_request_effects HTTPMethod.POST 201 = .ok [1] :=
  (trakt_request_sleep_spec HTTPMethod.POST 201 (by omega)).1 (by decide)

/-- C3: in the ratings sync, a local record absent from the remote ratings or
present with a different value contributes exactly one rated-item (with the
local rating) for its identifier to the add batches; a record whose remote
value matches contributes nothing, assuming feed identifiers are distinct and
the record's kind is movie or show (the only kinds ingestion produces). -/
theorem sync_ratings_update_rule (feed : List IMDBRatingItem)
    (remote : List TraktRatingItem) (now : Nat) (r : IMDBRatingItem)
    (hr : r ∈ feed) (hnd : (feed.map IMDBRatingItem.imdb_id).Nodup)
    (hkind : r.trakt_type ≠ IMDBTraktType.episode) :
    (trakt_rated remote r.imdb_id = none →
      _count_id ((sync_ratings_batches (trakt_rated remote) now feed).1
          ++ (sync_ratings_batches (trakt_rated remote) now feed).2) r.imdb_id = 1 ∧
      rated_item_of r now ∈ (sync_ratings_batches (trakt_rated remote) now feed).1
          ++ (sync_ratings_batches (trakt_rated remote) now feed).2 ∧
      (rated_item_of r now).rating = r.rating) ∧
    (∀ v, trakt_rated remote r.imdb_id = some v → r.rating ≠ v →
      _count_id ((sync_ratings_batches (trakt_rated remote) now feed).1
          ++ (sync_ratings_batches (trakt_rated remote) now feed).2) r.imdb_id = 1 ∧
      rated_item_of r now ∈ (sync_ratings_batches (trakt_rated remote) now feed).1
          ++ (sync_ratings_batches (trakt_rated remote) now feed).2 ∧
      (rated_item_of r now).rating = r.rating) ∧
    (trakt_rated remote r.imdb_id = some r.rating →
      _count_id ((sync_ratings_batches (trakt_rated remote) now feed).1
          ++ (sync_ratings_batches (trakt_rated remote) now feed).2) r.imdb_id = 0) := by
  have hkb : (r.trakt_type != IMDBTraktType.episode) = true := by
    cases htk : r.trakt_type <;> simp_all
  have hcount := sync_ratings_batches_count (trakt_rated remote) now feed r.imdb_id
  have hflt := filter_by_id_of_nodup feed r hnd hr
    (fun x => should_rate (trakt_rated remote) x && x.trakt_type != IMDBTraktType.episode)
  have main : should_rate (trakt_rated remote) r = true →
      _count_id ((sync_ratings_batches (trakt_rated remote) now feed).1
          ++ (sync_ratings_batches (trakt_rated remote) now feed).2) r.imdb_id = 1 ∧
      rated_item_of r now ∈ (sync_ratings_batches (trakt_rated remote) now feed).1
          ++ (sync_ratings_batches (trakt_rated remote) now feed).2 ∧
      (rated_item_of r now).rating = r.rating := by
    intro hs
    refine ⟨?_, ?_, rfl⟩
    · rw [hcount, hflt]
      simp [hs, hkb]
    · have hmems := rated_item_mem_batches (trakt_rated remote) now feed r hr hs
      cases htk : r.trakt_type
      · exact List.mem_append_left _ (hmems.1 htk)
      · exact List.mem_append_right _ (hmems.2 htk)
      · exact absurd htk hkind
  refine ⟨fun hnone => ?_, fun v hv hne => ?_, fun heq => ?_⟩
  · exact main (by simp [should_rate, hnone])
  · exact main (by simp [should_rate, hv, hne])
  · have hs : should_rate (trakt_rated remote) r = false := by
      simp [should_rate, heq]
    rw [hcount, hflt]
    simp [hs]

/-- Concrete remote rating snapshot row binding `tt0000003` to rating 7. -/
def _remote_rating_tt3 : TraktRatingItem :=
  { type := .movie, movie := ⟨⟨some "tt0000003"⟩⟩, «show» := ⟨⟨none⟩⟩,
    season := ⟨⟨none⟩⟩, episode := ⟨⟨none⟩⟩, rated_at := "", rating := 7 }

/-- C3 witness: local rating 9 against remote rating 7 yields exactly one
rated-item for the identifier. -/
theorem sync_ratings_update_rule_witness :
    _count_id ((sync_ratings_batches (trakt_rated [_remote_rating_tt3]) 0
        [⟨"tt0000003", 9, 3, .movie⟩]).1
      ++ (sync_ratings_batches (trakt_rated [_remote_rating_tt3]) 0
        [⟨"tt0000003", 9, 3, .movie⟩]).2) "tt0000003" = 1 :=
  ((sync_ratings_update_rule [⟨"tt0000003", 9, 3, .movie⟩] [_remote_rating_tt3] 0
      ⟨"tt0000003", 9, 3, .movie⟩ (by decide) (by decide) (by decide)).2.1
    7 (by decide) (by decide)).1

/-- C4: every rated-item the ratings sync builds carries the effective
timestamp `min(end-of-day on its record's rated-on date, now)`, which is never
later than the run's start time `now` (in particular not for a rated-on date
equal to today). -/
theorem sync_ratings_timestamp_cap (feed : List IMDBRatingItem)
    (remote : List TraktRatingItem) (now : Nat) (it : TraktRatedItem)
    (hit : it ∈ (sync_ratings_batches (trakt_rated remote) now feed).1
        ++ (sync_ratings_batches (trakt_rated remote) now feed).2) :
    ∃ r ∈ feed, it = rated_item_of r now ∧
      it.rated_at = min (datetime_combine r.rated_on _END_OF_DAY_TIME) now ∧
      it.rated_at ≤ now ∧
      (r.rated_on = now / 86400 → it.rated_at ≤ now) := by
  obtain ⟨r, hr, he⟩ := batches_mem_provenance (trakt_rated remote) now feed it hit
  subst he
  exact ⟨r, hr, rfl, rfl, Nat.min_le_right _ _, fun _ => Nat.min_le_right _ _⟩

/-- C4 witness: a record rated on day 0 with the run starting at second 5 of
day 0 gets effective timestamp 5 = min(86399, 5) ≤ now. -/
theorem sync_ratings_timestamp_cap_witness :
    ∃ r ∈ [(⟨"tt0000004", 8, 0, .movie⟩ : IMDBRatingItem)],
      ({ ids := ⟨some "tt0000004"⟩, rated_at := 5, rating := 8 } : TraktRatedItem)
          = rated_item_of r 5 ∧
      ({ ids := ⟨some "tt0000004"⟩, rated_at := 5, rating := 8 } : TraktRatedItem).rated_at
          = min (datetime_combine r.rated_on _END_OF_DAY_TIME) 5 ∧
      ({ ids := ⟨some "tt0000004"⟩, rated_at := 5, rating := 8 } : TraktRatedItem).rated_at ≤ 5 ∧
      (r.rated_on = 5 / 86400 →
        ({ ids := ⟨some "tt0000004"⟩, rated_at := 5, rating := 8 } : TraktRatedItem).rated_at ≤ 5) :=
  sync_ratings_timestamp_cap [⟨"tt0000004", 8, 0, .movie⟩] [] 5 _ (by decide)

/-- C5: against a server with consistent pagination headers reporting
`page_count = N`, the paginated fetcher requests exactly pages
`1, 2, ..., max 1 N` in order, stopping the first time the echoed page number
reaches the page count, and returns the in-order concatenation of all pages;
if some page request in that range fails, the whole sequence aborts with that
transport error. -/
theorem trakt_request_paginated_spec {α : Type} (pages : Nat → List α)
    (N L C fuel : Nat) (hfuel : max 1 N ≤ fuel) :
    trakt_request_paginated (_ok_server pages N L C) fuel
        = some (.ok (List.range' 1 (max 1 N), (List.range' 1 (max 1 N)).flatMap pages)) ∧
    (∀ k e, 1 ≤ k → k ≤ max 1 N →
      trakt_request_paginated (_failing_server pages N L C k e) fuel
        = some (.error e)) := by
  constructor
  · have h := _paginate_loop_ok_server pages N L C fuel 1 Nat.one_pos
      (by simpa using hfuel)
    simpa using h
  · intro k e hk1 hkN
    have hq : ∀ q, 0 < q → q < k → q < N := by
      intro q hq0 hqk
      rcases Nat.eq_zero_or_pos N with hN | hN
      · subst hN
        simp at hkN
        omega
      · have hmax : max 1 N = N := Nat.max_eq_right hN
        omega
    have hk_fuel : k ≤ fuel := le_trans hkN hfuel
    exact _paginate_loop_fail_server pages N L C k e hq fuel 1 Nat.one_pos hk1
      (by omega)

/-- C5 witness: a 2-page run with one item per page and the same run failing
from page 2 onward. -/
theorem trakt_request_paginated_spec_witness :
    trakt_request_paginated (_ok_server (fun p => [p]) 2 10 2) 3
        = some (.ok ([1, 2], [1, 2])) ∧
    trakt_request_paginated (_failing_server (fun p => [p]) 2 10 2 2 ⟨500⟩) 3
        = some (.error ⟨500⟩) :=
  ⟨((trakt_request_paginated_spec (fun p => [p]) 2 10 2 3 (by decide)).1).trans rfl,
   (trakt_request_paginated_spec (fun p => [p]) 2 10 2 3 (by decide)).2 2 ⟨500⟩
     (by decide) (by decide)⟩

lemma mem_items_of_id_set (s : List String) (imdb : String) :
    (⟨⟨some imdb⟩⟩ : TraktAnyItem) ∈ _items_of_id_set s ↔ imdb ∈ s := by
  simp [_items_of_id_set, TraktAnyItem.mk.injEq, TraktIMDBIDs.mk.injEq]

lemma mem_set_diff (a b : List String) (imdb : String) :
    imdb ∈ _set_diff a b ↔ imdb ∈ a ∧ imdb ∉ b := by
  simp [_set_diff]

/-- C1: the watchlist sync computes, per kind, `to_add` as the local minus
remote identifier set and `to_remove` as the remote minus local set, and the
remove set is actually posted to the removal endpoint when non-empty outside
dry-run; the ratings and history syncs post no removal mutation whatsoever. -/
theorem watchlist_diff_add_only_domains (items : List IMDBWatchlistItem)
    (env : TraktEnv) (feed : List IMDBRatingItem) (now : Nat) (dry_run : Bool) :
    (∀ imdb : String,
      (⟨⟨some imdb⟩⟩ : TraktAnyItem) ∈ watchlist_add_movies items env.watchlist
        ↔ (imdb ∈ imdb_movie_ids items ∧ imdb ∉ existing_movie_imdb_ids env.watchlist)) ∧
    (∀ imdb : String,
      (⟨⟨some imdb⟩⟩ : TraktAnyItem) ∈ watchlist_add_shows items env.watchlist
        ↔ (imdb ∈ imdb_show_ids items ∧ imdb ∉ existing_show_imdb_ids env.watchlist)) ∧
    (∀ imdb : String,
      (⟨⟨some imdb⟩⟩ : TraktAnyItem) ∈ watchlist_remove_movies items env.watchlist
        ↔ (imdb ∈ existing_movie_imdb_ids env.watchlist ∧ imdb ∉ imdb_movie_ids items)) ∧
    (∀ imdb : String,
      (⟨⟨some imdb⟩⟩ : TraktAnyItem) ∈ watchlist_remove_shows items env.watchlist
        ↔ (imdb ∈ existing_show_imdb_ids env.watchlist ∧ imdb ∉ imdb_show_ids items)) ∧
    (dry_run = false →
      ((watchlist_remove_movies_final items env).isEmpty &&
        (watchlist_remove_shows_final items env).isEmpty) = false →
      TraktMutation.removeFromWatchlist (watchlist_remove_movies_final items env)
          (watchlist_remove_shows_final items env) [] []
        ∈ _posted (sync_watchlist items env dry_run)) ∧
    (∀ m ∈ _posted (sync_ratings feed env now dry_run), m.isRemoval = false) ∧
    (∀ m ∈ _posted (sync_history feed env dry_run), m.isRemoval = false) := by
  refine ⟨?_, ?_, ?_, ?_, ?_, ?_, ?_⟩
  · intro imdb
    rw [watchlist_add_movies, mem_items_of_id_set, mem_set_diff]
  · intro imdb
    rw [watchlist_add_shows, mem_items_of_id_set, mem_set_diff]
  · intro imdb
    rw [watchlist_remove_movies, mem_items_of_id_set, mem_set_diff]
  · intro imdb
    rw [watchlist_remove_shows, mem_items_of_id_set, mem_set_diff]
  · intro hdry hne
    subst hdry
    have hcond : ((watchlist_remove_movies_final items env).isEmpty &&
        (watchlist_remove_shows_final items env).isEmpty &&
        List.isEmpty ([] : List TraktAnyItem) &&
        List.isEmpty ([] : List TraktAnyItem)) = false := by
      simpa using hne
    cases ho : trakt_remove_from_watchlist (watchlist_remove_movies_final items env)
        (watchlist_remove_shows_final items env) [] [] false with
    | skipEmpty =>
      have := (trakt_remove_from_watchlist_outcomes (watchlist_remove_movies_final items env)
        (watchlist_remove_shows_final items env) [] [] false).1
      rw [ho, hcond] at this
      simp [ApplierOutcome.isPost] at this
    | dryRun logs =>
      have := (trakt_remove_from_watchlist_outcomes (watchlist_remove_movies_final items env)
        (watchlist_remove_shows_final items env) [] [] false).1
      rw [ho, hcond] at this
      simp [ApplierOutcome.isPost] at this
    | post m =>
      have hm := (trakt_remove_from_watchlist_post ho).1
      subst hm
      exact mem_posted_iff.mpr
        ⟨_, List.mem_cons_of_mem _ (List.mem_cons_self _ _), ho⟩
  · intro m hm
    rw [sync_ratings_posted_shape hm]
    rfl
  · intro m hm
    rw [sync_history_posted_shape hm]
    rfl

/-- Remote environment with no snapshots, no watching status, and a search
endpoint that resolves everything. -/
def _plain_env : TraktEnv :=
  { watchlist := [], ratings := [], history := [], watching := none,
    search_found := fun _ _ => true }

/-- C1 witness: the single mutation a ratings sync posts is not a removal. -/
theorem watchlist_diff_add_only_domains_witness :
    TraktMutation.isRemoval (TraktMutation.addRatings
      [{ ids := ⟨some "tt0000011"⟩, rated_at := 0, rating := 8 }] [] [] []) = false :=
  (watchlist_diff_add_only_domains [] _plain_env [⟨"tt0000011", 8, 0, .movie⟩]
    0 false).2.2.2.2.2.1 _ (by decide)

/-- Watching status playing the movie `tt0000001`. -/
def _watching_tt1 : TraktWatchingItem :=
  { expires_at := "", started_at := "", action := "checkin", type := .movie,
    movie := ⟨⟨some "tt0000001"⟩⟩, episode := ⟨⟨none⟩⟩, «show» := ⟨⟨none⟩⟩ }

/-- Remote environment whose watching status is `_watching_tt1`. -/
def _watching_env : TraktEnv :=
  { watchlist := [], ratings := [], history := [], watching := some _watching_tt1,
    search_found := fun _ _ => true }

/-- C2 counterexample: the ratings sync never calls `watching()` and applies
no exclusion — with the account watching `tt0000001` and a local rating for
the same identifier, the posted add-ratings mutation still carries it. -/
theorem sync_ratings_ignores_watching_cex :
    _watching_env.watching = some _watching_tt1 ∧
    trakt_watching_imdb_id _watching_tt1 = some "tt0000001" ∧
    ∃ m ∈ _posted (sync_ratings [⟨"tt0000001", 9, 0, .movie⟩] _watching_env 0 false),
      some "tt0000001" ∈ m.allIds := by
  refine ⟨rfl, rfl, ?_⟩
  decide

/-- C2 (amended): in the watchlist and history syncs, when `watching()`
returns a status every entry whose identifier equals the watching identifier
is removed from every to-add and to-remove batch before any mutation is
posted; the ratings sync performs no `watching()` call and no such
exclusion. -/
theorem watching_exclusion_watchlist_history (items : List IMDBWatchlistItem)
    (feed : List IMDBRatingItem) (env : TraktEnv) (dry_run : Bool)
    (w : TraktWatchingItem) (hw : env.watching = some w) :
    (∀ m ∈ _posted (sync_watchlist items env dry_run),
      trakt_watching_imdb_id w ∉ m.allIds) ∧
    (∀ m ∈ _posted (sync_history feed env dry_run),
      trakt_watching_imdb_id w ∉ m.allIds) := by
  have hblock : ∀ {α : Type} (ids_of : α → TraktIMDBIDs) (l : List α) (it : α),
      it ∈ _apply_watching_block ids_of l env.watching →
      (ids_of it).imdb ≠ trakt_watching_imdb_id w := by
    intro α ids_of l it hit
    rw [hw] at hit
    exact mem_apply_watching_block_ne hit
  have hadd_m : ∀ it ∈ watchlist_add_movies_final items env,
      it.ids.imdb ≠ trakt_watching_imdb_id w := by
    intro it hit
    simp only [watchlist_add_movies_final] at hit
    exact hblock _ _ _ (mem_of_mem_filter_unknown hit)
  have hadd_s : ∀ it ∈ watchlist_add_shows_final items env,
      it.ids.imdb ≠ trakt_watching_imdb_id w := by
    intro it hit
    simp only [watchlist_add_shows_final] at hit
    exact hblock _ _ _ (mem_of_mem_filter_unknown hit)
  have hrem_m : ∀ it ∈ watchlist_remove_movies_final items env,
      it.ids.imdb ≠ trakt_watching_imdb_id w := by
    intro it hit
    simp only [watchlist_remove_movies_final] at hit
    exact hblock _ _ _ hit
  have hrem_s : ∀ it ∈ watchlist_remove_shows_final items env,
      it.ids.imdb ≠ trakt_watching_imdb_id w := by
    intro it hit
    simp only [watchlist_remove_shows_final] at hit
    exact hblock _ _ _ hit
  have hhis_m : ∀ it ∈ history_add_movies_final feed env,
      it.ids.imdb ≠ trakt_watching_imdb_id w := by
    intro it hit
    simp only [history_add_movies_final] at hit
    exact hblock (fun (x : TraktWatchedItem) => x.ids) _ it
      (mem_of_mem_filter_unknown hit)
  have hhis_e : ∀ it ∈ history_add_episodes_final feed env,
      it.ids.imdb ≠ trakt_watching_imdb_id w := by
    intro it hit
    simp only [history_add_episodes_final] at hit
    exact hblock (fun (x : TraktWatchedItem) => x.ids) _ it
      (mem_of_mem_filter_unknown hit)
  constructor
  · intro m hm hids
    rcases sync_watchlist_posted_shape hm with rfl | rfl
    · simp only [TraktMutation.allIds, List.append_nil, List.mem_map,
        List.mem_append] at hids
      obtain ⟨it, hit | hit, heq⟩ := hids
      · exact hadd_m it hit heq
      · exact hadd_s it hit heq
    · simp only [TraktMutation.allIds, List.append_nil, List.mem_map,
        List.mem_append] at hids
      obtain ⟨it, hit | hit, heq⟩ := hids
      · exact hrem_m it hit heq
      · exact hrem_s it hit heq
  · intro m hm hids
    rw [sync_history_posted_shape hm] at hids
    simp only [TraktMutation.allIds, List.append_nil, List.nil_append,
      List.mem_map, List.mem_append] at hids
    obtain ⟨it, hit | hit, heq⟩ := hids
    · exact hhis_m it hit heq
    · exact hhis_e it hit heq

/-- C2 witness: with the account watching `tt0000001`, the watchlist sync's
posted add mutation for `tt0000002` does not carry the watching identifier. -/
theorem watching_exclusion_watchlist_history_witness :
    trakt_watching_imdb_id _watching_tt1
      ∉ (TraktMutation.updateWatchlist [⟨⟨some "tt0000002"⟩⟩] [] [] []).allIds :=
  (watching_exclusion_watchlist_history [⟨"tt0000002", .movie⟩] [] _watching_env
    false _watching_tt1 rfl).1 _ (by decide)

/-- C9: ratings ingestion maps title types only to movie or show, so for any
successfully decoded feed the history sync's local episode identifier set is
empty, its add-episodes batch is empty, and no posted history mutation
carries an episode. -/
theorem history_no_episode_additions (rows : List CSVRatingRow) (env : TraktEnv)
    (dry_run : Bool) (items : List IMDBRatingItem)
    (h : fetch_imdb_ratings rows = .ok items) :
    (∀ r ∈ items, r.trakt_type ≠ .episode) ∧
    history_imdb_episode_ids items = [] ∧
    history_add_episodes_final items env = [] ∧
    (∀ m ∈ _posted (sync_history items env dry_run), m.historyEpisodes = []) := by
  have hkinds := fetch_imdb_ratings_no_episode h
  have hids : history_imdb_episode_ids items = [] := by
    unfold history_imdb_episode_ids
    have hfe : items.filter (fun r => r.trakt_type == IMDBTraktType.episode) = [] := by
      rw [List.filter_eq_nil_iff]
      intro a ha
      simp [hkinds a ha]
    rw [hfe]
    rfl
  have hfinal : history_add_episodes_final items env = [] := by
    unfold history_add_episodes_final history_add_episodes _watched_items_of _diff_opt
    rw [hids]
    cases env.watching <;>
      simp [_apply_watching_block, _block_watching_items, _filter_unknown_imdb_ids]
  refine ⟨hkinds, hids, hfinal, ?_⟩
  intro m hm
  rw [sync_history_posted_shape hm]
  simp [TraktMutation.historyEpisodes, hfinal]

/-- C9 witness: a one-movie-row feed decodes and yields an empty add-episodes
batch. -/
theorem history_no_episode_additions_witness :
    history_add_episodes_final [⟨"tt0000009", 8, 0, .movie⟩] _plain_env = [] :=
  (history_no_episode_additions [⟨"tt0000009", 8, 0, "Movie"⟩] _plain_env false
    [⟨"tt0000009", 8, 0, .movie⟩] (by rfl)).2.2.1

/-- C10: each watchlist batch lists every identifier at most once, and a feed
with duplicated rows produces exactly the same batches as the deduplicated
feed, because local identifiers are collected into a set before the
differences are taken. -/
theorem watchlist_batches_dedup_invariant (items : List IMDBWatchlistItem)
    (existing : List TraktWatchlistItem) :
    ((watchlist_add_movies items existing).map (fun it => it.ids.imdb)).Nodup ∧
    ((watchlist_add_shows items existing).map (fun it => it.ids.imdb)).Nodup ∧
    ((watchlist_remove_movies items existing).map (fun it => it.ids.imdb)).Nodup ∧
    ((watchlist_remove_shows items existing).map (fun it => it.ids.imdb)).Nodup ∧
    watchlist_add_movies items.dedup existing = watchlist_add_movies items existing ∧
    watchlist_add_shows items.dedup existing = watchlist_add_shows items existing ∧
    watchlist_remove_movies items.dedup existing = watchlist_remove_movies items existing ∧
    watchlist_remove_shows items.dedup existing = watchlist_remove_shows items existing := by
  have hnodup : ∀ s : List String, s.Nodup →
      ((_items_of_id_set s).map (fun it => it.ids.imdb)).Nodup := by
    intro s hs
    rw [_items_of_id_set, List.map_map]
    exact hs.map (fun a b hab => Option.some_injective String hab)
  have hdiff : ∀ (a b : List String), a.Nodup → (_set_diff a b).Nodup :=
    fun a b h => h.filter _
  have hm : imdb_movie_ids items.dedup = imdb_movie_ids items :=
    dedup_map_filter_dedup items _ _
  have hs : imdb_show_ids items.dedup = imdb_show_ids items :=
    dedup_map_filter_dedup items _ _
  refine ⟨?_, ?_, ?_, ?_, ?_, ?_, ?_, ?_⟩
  · exact hnodup _ (hdiff _ _ (List.nodup_dedup _))
  · exact hnodup _ (hdiff _ _ (List.nodup_dedup _))
  · exact hnodup _ (hdiff _ _ (List.nodup_dedup _))
  · exact hnodup _ (hdiff _ _ (List.nodup_dedup _))
  · rw [watchlist_add_movies, watchlist_add_movies, hm]
  · rw [watchlist_add_shows, watchlist_add_shows, hs]
  · rw [watchlist_remove_movies, watchlist_remove_movies, hm]
  · rw [watchlist_remove_shows, watchlist_remove_shows, hs]
